import Mathlib

/-!
A shallow embedding, in Lean 4, of the admin-dashboard route handlers of this
repository, together with theorems checking the specification's claims against
them.

Conventions of the embedding:
* JavaScript strings become Lean `String` (or `List Char` where we reason about
  their characters); JavaScript values that may be `undefined`/`null` become
  `Option`; JavaScript truthiness tests (`!x`, `x || y`) are made explicit.
* The database is an in-memory record of lists of rows; Prisma `create`
  appends, `updateMany`/`update` map over rows, `deleteMany` filters,
  `findUnique`/`count` query the lists.
* HTTP responses are records holding the status code, the `error` field and
  any payload the handler returns.
* `new Date()` timestamps are an abstract `Nat` parameter `now`;
  `crypto.getRandomUUID()` is an abstract fresh-id parameter.
-/

namespace NextAcct

/-- JavaScript-like field values stored in a report/user row.  Numbers are
modelled as integers (the claims only concern the number `0`). -/
inductive JSVal where
  | undef
  | null
  | str (s : List Char)
  | num (n : Int)
  | boolV (b : Bool)
deriving DecidableEq, Repr

/-- JavaScript truthiness: `undefined`, `null`, `''`, `0` and `false` are
falsy. -/
def JSVal.falsy : JSVal → Bool
  | .undef => true
  | .null => true
  | .str s => s.isEmpty
  | .num n => n == 0
  | .boolV b => !b

/-- The `String(value)` coercion on the values above. -/
def jsToString : JSVal → List Char
  | .undef => "undefined".toList
  | .null => "null".toList
  | .str s => s
  | .num n => (toString n).toList
  | .boolV b => if b then "true".toList else "false".toList

/-- Truthiness of an optional string (`!x` on a string that may be
`undefined`): present and non-empty. -/
def optTruthy : Option String → Bool
  | none => false
  | some s => !s.isEmpty

/-! ## Export-schedule routes (`/api/admin/users/exports/schedule`) -/

/-- A row of the `exportSchedule` table, with the fields the `POST` handler
writes. -/
structure ExportSchedule where
  id : String
  name : String
  description : Option String
  frequency : String
  format : String
  recipients : List String
  dayOfWeek : Option Int
  dayOfMonth : Option Int
  time : String
  emailSubject : Option String
  emailBody : Option String
  filterPresetId : Option String
  isActive : Bool
  tenantId : String
  userId : String
  createdAt : Nat
  updatedAt : Nat
deriving DecidableEq, Repr

/-- A row of the `user` table, as selected by these routes
(`select: { tenantId: true }`). -/
structure UserRow where
  id : String
  tenantId : Option String
deriving DecidableEq, Repr

/-- A row of the `exportScheduleExecution` table (only the foreign key
matters to the `DELETE` handler). -/
structure ScheduleExec where
  id : String
  scheduleId : String
deriving DecidableEq, Repr

/-- The store visible to the export-schedule routes. -/
structure SchedDB where
  users : List UserRow
  schedules : List ExportSchedule
  schedExecs : List ScheduleExec
deriving DecidableEq, Repr

/-- Request context shared by the schedule handlers: the rate-limit outcome,
`session?.user?.id`, and the result of
`hasPermission(session.user.id, 'admin:users:export')`. -/
structure ReqCtx where
  rateLimitOk : Bool
  sessionUserId : Option String
  hasExportPermission : Bool
deriving DecidableEq, Repr

/-- The lookup `prisma.user.findUnique` selecting `tenantId`,
followed by reading `.tenantId`. -/
def lookupTenant (db : SchedDB) (uid : String) : Option String :=
  match db.users.find? (fun u => u.id == uid) with
  | none => none
  | some u => u.tenantId

/-- Body of `POST /api/admin/users/exports/schedule`; absent fields are
`none`. -/
structure CreateScheduleBody where
  name : Option String
  description : Option String
  frequency : Option String
  format : Option String
  recipients : Option (List String)
  dayOfWeek : Option Int
  dayOfMonth : Option Int
  time : Option String
  emailSubject : Option String
  emailBody : Option String
  filterPresetId : Option String
  isActive : Option Bool
deriving DecidableEq, Repr

/-- The required-field validation
`!name || !frequency || !format || !recipients || recipients.length === 0`. -/
def missingRequired (b : CreateScheduleBody) : Bool :=
  !(optTruthy b.name) || !(optTruthy b.frequency) || !(optTruthy b.format) ||
    (match b.recipients with
     | none => true
     | some l => l.isEmpty)

/-- ASCII approximation of the regex class `\s`. -/
def isSpaceChar (c : Char) : Bool :=
  c == ' ' || c == '\t' || c == '\n' || c == '\r'

/-- One-or-more characters drawn from `[^\s@]`. -/
def emailSeg (s : List Char) : Bool :=
  !s.isEmpty && s.all (fun c => !isSpaceChar c && c != '@')

/-- The email check `/^[^\s@]+@[^\s@]+\.[^\s@]+$/.test(email)`: exactly one
`@`, a non-empty space-free local part, and a domain containing a dot with
non-empty material on both sides. -/
def emailOk (s : String) : Bool :=
  match s.toList.splitOn '@' with
  | [localPart, domain] =>
      emailSeg localPart && emailSeg domain && ((domain.drop 1).dropLast.contains '.')
  | _ => false

/-- The fallback `x || null` on an optional integer field (`0` is falsy, so a present `0`
also becomes `null`). -/
def jsOrNullInt (v : Option Int) : Option Int :=
  match v with
  | some n => if n == 0 then none else some n
  | none => none

/-- The fallback `time || '09:00'`. -/
def timeOrDefault (v : Option String) : String :=
  match v with
  | some t => if t.isEmpty then "09:00" else t
  | none => "09:00"

/-- Response of the schedule `POST` handler. -/
structure SchedulePostResp where
  status : Nat
  error : Option String := none
  schedule : Option ExportSchedule := none
deriving DecidableEq, Repr

/-- Number of schedules a tenant holds
(`prisma.exportSchedule.count({ where: { tenantId: t } })`). -/
def tenantCount (db : SchedDB) (t : String) : Nat :=
  (db.schedules.filter (fun s => s.tenantId == t)).length

/-- Handler `POST /api/admin/users/exports/schedule`: rate limit, session, permission
and tenant gates, then field/format/email validation, the 20-schedule limit,
and finally `prisma.exportSchedule.create`. -/
def postSchedule (ctx : ReqCtx) (body : CreateScheduleBody) (newId : String)
    (now : Nat) (db : SchedDB) : SchedulePostResp × SchedDB :=
  if !ctx.rateLimitOk then
    ({ status := 429, error := some "Rate limit exceeded" }, db)
  else if !(optTruthy ctx.sessionUserId) then
    ({ status := 401, error := some "Unauthorized" }, db)
  else if !ctx.hasExportPermission then
    ({ status := 403, error := some "Forbidden" }, db)
  else
    let uid := ctx.sessionUserId.getD ""
    let tenantId? := lookupTenant db uid
    if !(optTruthy tenantId?) then
      ({ status := 400, error := some "User not associated with tenant" }, db)
    else
      let tenantId := tenantId?.getD ""
      if missingRequired body then
        ({ status := 400,
           error := some "Missing required fields: name, frequency, format, recipients" }, db)
      else if !(["csv", "xlsx", "json", "pdf"].contains (body.format.getD "")) then
        ({ status := 400, error := some "Invalid export format" }, db)
      else if (body.recipients.getD []).any (fun e => !(emailOk e)) then
        ({ status := 400, error := some "One or more recipient emails are invalid" }, db)
      else if 20 ≤ tenantCount db tenantId then
        ({ status := 400,
           error := some "Maximum number of export schedules (20) reached for this tenant" }, db)
      else
        let sched : ExportSchedule :=
          { id := newId
            name := body.name.getD ""
            description := body.description
            frequency := body.frequency.getD ""
            format := body.format.getD ""
            recipients := body.recipients.getD []
            dayOfWeek := jsOrNullInt body.dayOfWeek
            dayOfMonth := jsOrNullInt body.dayOfMonth
            time := timeOrDefault body.time
            emailSubject := body.emailSubject
            emailBody := body.emailBody
            filterPresetId := body.filterPresetId
            isActive := body.isActive.getD true
            tenantId := tenantId
            userId := uid
            createdAt := now
            updatedAt := now }
        ({ status := 200, schedule := some sched },
         { db with schedules := db.schedules ++ [sched] })

/-- Body of the bulk `PATCH` handler. -/
structure PatchBody where
  action : Option String
  scheduleIds : Option (List String)
deriving DecidableEq, Repr

/-- Response of the bulk `PATCH`/`DELETE` handlers. -/
structure BulkResp where
  status : Nat
  error : Option String := none
  deletedCount : Option Nat := none
deriving DecidableEq, Repr

/-- The constant the `PATCH` handler writes:
`isActive: { not: true }` — the Prisma data value denotes the negation of the
literal `true`, the same constant for every matched row. -/
def prismaNotTrue : Bool := !true

/-- Handler `PATCH /api/admin/users/exports/schedule`: gates, then for
`action === 'toggleActive'` with an array `scheduleIds`, a single
`updateMany` whose `where` is `id ∈ scheduleIds` and whose `data` sets
`isActive` to `prismaNotTrue`. -/
def patchSchedules (ctx : ReqCtx) (body : PatchBody) (db : SchedDB) :
    BulkResp × SchedDB :=
  if !ctx.rateLimitOk then
    ({ status := 429, error := some "Rate limit exceeded" }, db)
  else if !(optTruthy ctx.sessionUserId) then
    ({ status := 401, error := some "Unauthorized" }, db)
  else if !ctx.hasExportPermission then
    ({ status := 403, error := some "Forbidden" }, db)
  else
    match body.scheduleIds with
    | some ids =>
        if body.action == some "toggleActive" then
          ({ status := 200 },
           { db with schedules := db.schedules.map (fun s =>
               if ids.contains s.id then { s with isActive := prismaNotTrue } else s) })
        else
          ({ status := 400, error := some "Invalid action" }, db)
    | none => ({ status := 400, error := some "Invalid action" }, db)

/-- The split `searchParams.get('ids')?.split(',')` on a present parameter:
comma-separated segments (an empty string yields `[""]`, as in JavaScript). -/
def splitCommas (s : String) : List String :=
  (s.toList.splitOn ',').map (fun cs => cs.asString)

/-- Handler `DELETE /api/admin/users/exports/schedule?ids=...`: gates, split the query
parameter on commas (absent parameter gives `[]`), reject an empty list, then
`deleteMany` on executions and schedules keyed only on the id list. -/
def deleteSchedules (ctx : ReqCtx) (idsParam : Option String) (db : SchedDB) :
    BulkResp × SchedDB :=
  if !ctx.rateLimitOk then
    ({ status := 429, error := some "Rate limit exceeded" }, db)
  else if !(optTruthy ctx.sessionUserId) then
    ({ status := 401, error := some "Unauthorized" }, db)
  else if !ctx.hasExportPermission then
    ({ status := 403, error := some "Forbidden" }, db)
  else
    let ids := match idsParam with
      | none => []
      | some s => splitCommas s
    if ids.length == 0 then
      ({ status := 400, error := some "No schedule IDs provided" }, db)
    else
      let execs := db.schedExecs.filter (fun e => !(ids.contains e.scheduleId))
      let deleted := (db.schedules.filter (fun s => ids.contains s.id)).length
      ({ status := 200, deletedCount := some deleted },
       { db with
           schedExecs := execs
           schedules := db.schedules.filter (fun s => !(ids.contains s.id)) })

/-! ## Report generators (`generateCSVReport`, `generateExcelReport`) -/

/-- A `{name, label}` column descriptor from `report.sections[0]?.columns`. -/
structure ColumnDesc where
  name : String
  label : List Char
deriving DecidableEq, Repr

/-- A data row: an association list from field names to values
(`row[c.name]` is a lookup that may come back `undefined`). -/
abbrev Row : Type := List (String × JSVal)

/-- The lookup `row[k]`. -/
def rowGet (r : Row) (k : String) : Option JSVal :=
  match r.find? (fun p => p.1 == k) with
  | none => none
  | some p => some p.2

/-- The fallback `x || ''` on a possibly-undefined field value. -/
def jsOrEmpty (v? : Option JSVal) : JSVal :=
  match v? with
  | none => JSVal.str []
  | some v => if v.falsy then JSVal.str [] else v

/-- The escape `String(value).replace(/"/g, '""')`: double every double-quote
character. -/
def escQuotes : List Char → List Char
  | [] => []
  | c :: cs => if c = '"' then '"' :: '"' :: escQuotes cs else c :: escQuotes cs

/-- One CSV data cell: `const value = row[c.name] || ''` then
`"${String(value).replace(/"/g, '""')}"`. -/
def renderCSVCell (v? : Option JSVal) : List Char :=
  '"' :: escQuotes (jsToString (jsOrEmpty v?)) ++ ['"']

/-- One TSV data cell: `row[c.name] || ''`, coerced to a string by
`Array.prototype.join`. -/
def renderTSVCell (v? : Option JSVal) : List Char :=
  jsToString (jsOrEmpty v?)

/-- The join `values.join(sep)`. -/
def joinCells (sep : Char) (cells : List (List Char)) : List Char :=
  List.intercalate [sep] cells

/-- Function `generateCSVReport`: a header line of quoted (but *unescaped*) labels when
columns are present and non-empty, then one line per row of quoted, escaped
cells.  The `report` argument of the source function is unused by it and is
omitted; `columns? = none` models an absent `reportData.columns`
(`reportData.columns || []`). -/
def generateCSVReport (columns? : Option (List ColumnDesc))
    (rows? : Option (List Row)) : List Char :=
  let headers :=
    match columns? with
    | some cols =>
        if cols.isEmpty then []
        else joinCells ',' (cols.map (fun c => '"' :: c.label ++ ['"'])) ++ ['\n']
    | none => []
  let body :=
    match rows? with
    | some rows =>
        if rows.isEmpty then []
        else
          let cols := columns?.getD []
          (rows.map (fun row =>
            joinCells ',' (cols.map (fun c => renderCSVCell (rowGet row c.name))) ++ ['\n'])).flatten
    | none => []
  headers ++ body

/-- The replacement `key.replace(/_/g, ' ')`. -/
def underscoresToSpaces (s : List Char) : List Char :=
  s.map (fun c => if c = '_' then ' ' else c)

/-- The default column list of `generateExcelReport`
(`reportData.columns || [...]`; reachable only when `columns` is absent, since
an empty array is truthy). -/
def defaultExcelColumns : List ColumnDesc :=
  [⟨"name", "Name".toList⟩, ⟨"email", "Email".toList⟩,
   ⟨"role", "Role".toList⟩, ⟨"availabilityStatus", "Status".toList⟩]

/-- Function `generateExcelReport`: title, optional description, a generation date
line, a summary block, then a tab-separated data table.  `dateStr` stands for
`new Date().toLocaleDateString()`. -/
def generateExcelReport (reportName : List Char) (description? : Option (List Char))
    (dateStr : List Char) (summary : List (String × JSVal))
    (columns? : Option (List ColumnDesc)) (rows? : Option (List Row)) : List Char :=
  let title := reportName ++ ['\n'] ++
    (match description? with
     | some d => d ++ ['\n']
     | none => []) ++
    "Generated: ".toList ++ dateStr ++ ['\n', '\n']
  let summaryBlock :=
    if summary.isEmpty then []
    else "SUMMARY".toList ++ ['\n'] ++
      (summary.map (fun p =>
        underscoresToSpaces p.1.toList ++ ['\t'] ++ jsToString p.2 ++ ['\n'])).flatten ++
      ['\n', '\n']
  let table :=
    match rows? with
    | some rows =>
        if rows.isEmpty then []
        else
          let cols := columns?.getD defaultExcelColumns
          joinCells '\t' (cols.map (fun c => c.label)) ++ ['\n'] ++
          (rows.map (fun row =>
            joinCells '\t' (cols.map (fun c => renderTSVCell (rowGet row c.name))) ++ ['\n'])).flatten
    | none => []
  title ++ summaryBlock ++ table

/-- The specification's reading of CSV quoting, used to state C4: *every*
field, header labels included, is wrapped in double quotes with embedded
double quotes doubled. -/
def csvQuoteEscaped (s : List Char) : List Char :=
  '"' :: escQuotes s ++ ['"']

/-- CSV output as the specification describes it: identical to
`generateCSVReport` except that header labels are also escaped. -/
def specCSVAllEscaped (columns? : Option (List ColumnDesc))
    (rows? : Option (List Row)) : List Char :=
  let headers :=
    match columns? with
    | some cols =>
        if cols.isEmpty then []
        else joinCells ',' (cols.map (fun c => csvQuoteEscaped c.label)) ++ ['\n']
    | none => []
  let body :=
    match rows? with
    | some rows =>
        if rows.isEmpty then []
        else
          let cols := columns?.getD []
          (rows.map (fun row =>
            joinCells ',' (cols.map (fun c => renderCSVCell (rowGet row c.name))) ++ ['\n'])).flatten
    | none => []
  headers ++ body

/-! ## Report generation route (`POST /api/admin/reports/[id]/generate`) -/

/-- A row of the `report` table, with the fields this route reads and
writes. -/
structure Report where
  id : String
  tenantId : String
  name : String
  lastGeneratedAt : Option Nat
  generationCount : Nat
deriving DecidableEq, Repr

/-- A row of the `reportExecution` table. -/
structure ReportExecution where
  id : String
  reportId : String
  status : String
  executedAt : Nat
  completedAt : Option Nat := none
  errorMessage : Option String := none
  fileSizeBytes : Option Nat := none
deriving DecidableEq, Repr

/-- The store visible to the report-generation route. -/
structure GenDB where
  reports : List Report
  reportExecutions : List ReportExecution
deriving DecidableEq, Repr

/-- Request context of the generation route: rate-limit outcome and
`hasPermission(context.userId, 'admin:reports:generate')`. -/
structure GenCtx where
  rateLimitOk : Bool
  hasGeneratePermission : Bool
deriving DecidableEq, Repr

/-- Response of the generation route. -/
structure GenResp where
  status : Nat
  error : Option String := none
  content : Option (List Char) := none
deriving DecidableEq, Repr

/-- The update `prisma.reportExecution.update` keyed on the execution id. -/
def updateExec (l : List ReportExecution) (eid : String)
    (f : ReportExecution → ReportExecution) : List ReportExecution :=
  l.map (fun x => if x.id == eid then f x else x)

/-- Handler `POST /api/admin/reports/[id]/generate`.  The body of the inner `try`
block (user fetch, filter application, format-specific generation,
lines 63–127 of the source) is abstracted as the parameter `genStep`:
`.ok content` is the generated string, `.error e` an exception thrown with
message `e`.  On failure the inner `catch` records `status: 'failed'`, the
error message and `completedAt` on the execution record and re-throws; the
outer `catch` then returns the generic 500 body — the composition of the two
is embedded directly.  The third component of the result counts how many
times `genStep` was run (the handler contains no retry). -/
def generateReportPOST (ctx : GenCtx) (reportId : String) (fmt? : Option String)
    (genStep : Except String (List Char)) (execId : String) (now : Nat)
    (db : GenDB) : GenResp × GenDB × Nat :=
  if !ctx.rateLimitOk then
    ({ status := 429, error := some "Rate limit exceeded" }, db, 0)
  else if !ctx.hasGeneratePermission then
    ({ status := 403, error := some "Forbidden" }, db, 0)
  else
    match db.reports.find? (fun r => r.id == reportId) with
    | none => ({ status := 404, error := some "Report not found" }, db, 0)
    | some report =>
      let format := fmt?.getD "pdf"
      if !(["pdf", "xlsx", "csv", "json"].contains format) then
        ({ status := 400,
           error := some "Invalid export format. Supported: pdf, xlsx, csv, json" }, db, 0)
      else
        let exec : ReportExecution :=
          { id := execId, reportId := report.id, status := "generating", executedAt := now }
        let db1 : GenDB := { db with reportExecutions := db.reportExecutions ++ [exec] }
        match genStep with
        | .error e =>
            let failExecs := updateExec db1.reportExecutions execId (fun x =>
              { x with status := "failed", errorMessage := some e, completedAt := some now })
            let db2 : GenDB := { db1 with reportExecutions := failExecs }
            ({ status := 500, error := some "Failed to generate report" }, db2, 1)
        | .ok content =>
            let okExecs := updateExec db1.reportExecutions execId (fun x =>
              { x with status := "completed", fileSizeBytes := some content.length,
                       completedAt := some now })
            let db2 : GenDB := { db1 with reportExecutions := okExecs }
            let reports3 := db2.reports.map (fun r =>
              if r.id == report.id then
                { r with lastGeneratedAt := some now,
                         generationCount := r.generationCount + 1 }
              else r)
            let db3 : GenDB := { db2 with reports := reports3 }
            ({ status := 200, content := some content }, db3, 1)

/-! ## Filter-preset routes (`/api/admin/filter-presets/[id]`) -/

/-- A row of the `filter_presets` table. -/
structure FilterPreset where
  id : String
  tenantId : String
  name : String
  description : Option String
  isPublic : Bool
  createdBy : String
  icon : Option String
  color : Option String
  filterConfig : String
  filterLogic : String
  updatedAt : Nat
deriving DecidableEq, Repr

/-- A `filterConfig` value sent in a `PATCH` body; its JSON encoding
(`JSON.stringify(filterConfig)`) is kept opaque as `serialized`, and `logic`
is its `.logic` property. -/
structure FilterCfg where
  serialized : String
  logic : Option String
deriving DecidableEq, Repr

/-- Body of `PATCH /api/admin/filter-presets/[id]`; absent fields are
`none` (`undefined`). -/
structure PresetPatchBody where
  name : Option String
  description : Option String
  isPublic : Option Bool
  icon : Option String
  color : Option String
  filterConfig : Option FilterCfg
deriving DecidableEq, Repr

/-- Response of the preset routes; `payload` is the preset the handler
returns on success. -/
structure PresetResp where
  status : Nat
  payload : Option FilterPreset := none
deriving DecidableEq, Repr

/-- Handler `GET /api/admin/filter-presets/[id]`: auth, lookup, then the
authorization check `!preset.isPublic && preset.createdBy !== ctx.userId`. -/
def presetGET (userId? : Option String) (presetId : String)
    (db : List FilterPreset) : PresetResp :=
  if !(optTruthy userId?) then { status := 401 }
  else
    match db.find? (fun p => p.id == presetId) with
    | none => { status := 404 }
    | some preset =>
        if !preset.isPublic && preset.createdBy != userId?.getD "" then
          { status := 403 }
        else
          { status := 200, payload := some preset }

/-- The `updateData` application of the preset `PATCH` handler: each provided
field overwrites the stored one, `filterConfig` is stored serialized with
`filterLogic = filterConfig.logic || 'AND'`, and `updatedAt` is stamped. -/
def applyPresetUpdate (body : PresetPatchBody) (now : Nat)
    (p : FilterPreset) : FilterPreset :=
  let p1 := match body.name with
    | some n => { p with name := n }
    | none => p
  let p2 := match body.description with
    | some d => { p1 with description := some d }
    | none => p1
  let p3 := match body.isPublic with
    | some b => { p2 with isPublic := b }
    | none => p2
  let p4 := match body.icon with
    | some i => { p3 with icon := some i }
    | none => p3
  let p5 := match body.color with
    | some c => { p4 with color := some c }
    | none => p4
  let p6 := match body.filterConfig with
    | some cfg =>
        { p5 with
            filterConfig := cfg.serialized
            filterLogic := match cfg.logic with
              | some l => if l.isEmpty then "AND" else l
              | none => "AND" }
    | none => p5
  { p6 with updatedAt := now }

/-- Handler `PATCH /api/admin/filter-presets/[id]`: auth, lookup, the owner check
`preset.createdBy !== ctx.userId`, a per-creator-per-tenant name-conflict
check (409), then `prisma.filter_presets.update`. -/
def presetPATCH (userId? : Option String) (presetId : String)
    (body : PresetPatchBody) (now : Nat) (db : List FilterPreset) :
    PresetResp × List FilterPreset :=
  if !(optTruthy userId?) then ({ status := 401 }, db)
  else
    let uid := userId?.getD ""
    match db.find? (fun p => p.id == presetId) with
    | none => ({ status := 404 }, db)
    | some preset =>
        if preset.createdBy != uid then ({ status := 403 }, db)
        else
          let nameConflict :=
            match body.name with
            | some n =>
                !n.isEmpty && n != preset.name &&
                (db.find? (fun (q : FilterPreset) =>
                  q.tenantId == preset.tenantId && q.name == n &&
                  q.createdBy == uid && q.id != presetId)).isSome
            | none => false
          if nameConflict then ({ status := 409 }, db)
          else
            let updated := applyPresetUpdate body now preset
            ({ status := 200, payload := some updated },
             db.map (fun (p : FilterPreset) =>
               if p.id == presetId then applyPresetUpdate body now p else p))

/-- Handler `DELETE /api/admin/filter-presets/[id]`: auth, lookup, the owner check,
then `prisma.filter_presets.delete`. -/
def presetDELETE (userId? : Option String) (presetId : String)
    (db : List FilterPreset) : PresetResp × List FilterPreset :=
  if !(optTruthy userId?) then ({ status := 401 }, db)
  else
    match db.find? (fun p => p.id == presetId) with
    | none => ({ status := 404 }, db)
    | some preset =>
        if preset.createdBy != userId?.getD "" then ({ status := 403 }, db)
        else
          ({ status := 200 }, db.filter (fun p => !(p.id == presetId)))

/-! ## User-directory filter state (`useFilterState` / `useFilterUsers`) -/

/-- Modelled from the spec: the repository's `useFilterState.ts` /
`useFilterUsers.ts` hooks are not among the provided sources (only the
implementation-status document and component tests describe them).  A user
record with the searched fields (`name`, `email`, `phone`, `company`) and the
exact-match filter fields (`role`, `status`). -/
structure UserItem where
  name : String
  email : String
  phone : String
  company : String
  role : String
  status : String
deriving DecidableEq, Repr

/-- Modelled from the spec: the filter specification — a free-text query and
optional role/status selections (`null` = "All"). -/
structure FilterState where
  search : String
  role : Option String
  status : Option String
deriving DecidableEq, Repr

/-- Modelled from the spec: the count triple returned by `useFilterState`. -/
structure FilterStats where
  totalCount : Nat
  filteredCount : Nat
  isFiltered : Bool
deriving DecidableEq, Repr

/-- Whether `needle` starts `hay`. -/
def startsWithChars : List Char → List Char → Bool
  | [], _ => true
  | _ :: _, [] => false
  | a :: as, b :: bs => a == b && startsWithChars as bs

/-- The test `hay.includes(needle)`: substring containment on character lists. -/
def containsSub (needle : List Char) : List Char → Bool
  | [] => startsWithChars needle []
  | c :: t => startsWithChars needle (c :: t) || containsSub needle t

/-- Case-insensitive substring test between two strings. -/
def ciContains (hay needle : String) : Bool :=
  containsSub (needle.toList.map Char.toLower) (hay.toList.map Char.toLower)

/-- Modelled from the spec: the free-text predicate — case-insensitive
substring search across the fixed field list `name`, `email`, `phone`,
`company`. -/
def matchesSearch (q : String) (u : UserItem) : Bool :=
  [u.name, u.email, u.phone, u.company].any (fun f => ciContains f q)

/-- Modelled from the spec: a record matches when every *active* predicate
holds (logical AND): the text query when non-empty, the role when selected,
the status when selected. -/
def matchesFilters (f : FilterState) (u : UserItem) : Bool :=
  (f.search.isEmpty || matchesSearch f.search u) &&
  (match f.role with
   | none => true
   | some r => u.role == r) &&
  (match f.status with
   | none => true
   | some s => u.status == s)

/-- Modelled from the spec: whether any filter is active. -/
def anyFilterActive (f : FilterState) : Bool :=
  !f.search.isEmpty || f.role.isSome || f.status.isSome

/-- Modelled from the spec: the memoized filtered subset. -/
def filteredUsers (f : FilterState) (users : List UserItem) : List UserItem :=
  users.filter (matchesFilters f)

/-- Modelled from the spec: the stats triple
`(total, filtered, isFiltered)` computed by `useFilterState`. -/
def filterStats (f : FilterState) (users : List UserItem) : FilterStats :=
  { totalCount := users.length
    filteredCount := (filteredUsers f users).length
    isFiltered := anyFilterActive f }

/-! ## Saved-views count badge (`SavedViewsButtons`) -/

/-- Modelled from the spec: the `SavedViewsButtons.tsx` component is not
among the provided sources (only its tests are).  The count badge renders a
view count, clamping values above 99 to the literal `"99+"`. -/
def displayViewCount (n : Nat) : String :=
  if 99 < n then "99+" else toString n

/-! ## Concrete sample data used by witness theorems -/

/-- An authenticated, rate-limit-passing, permission-holding request
context. -/
def sampleCtx : ReqCtx := ⟨true, some "u1", true⟩

/-- A concrete export schedule. -/
def sampleSched (i t : String) (act : Bool) : ExportSchedule :=
  { id := i, name := "weekly", description := none, frequency := "weekly",
    format := "csv", recipients := ["a@b.co"], dayOfWeek := none,
    dayOfMonth := none, time := "09:00", emailSubject := none,
    emailBody := none, filterPresetId := none, isActive := act,
    tenantId := t, userId := "u1", createdAt := 0, updatedAt := 0 }

/-- A concrete store: the caller `u1` belongs to tenant `t1`; schedule `s1`
(active) belongs to `t1` and schedule `s2` (inactive) to the *other* tenant
`t2`. -/
def sampleSchedDB : SchedDB :=
  { users := [⟨"u1", some "t1"⟩]
    schedules := [sampleSched "s1" "t1" true, sampleSched "s2" "t2" false]
    schedExecs := [⟨"e1", "s1"⟩] }

/-- A schedule-creation body with every required field missing. -/
def emptyScheduleBody : CreateScheduleBody :=
  ⟨none, none, none, none, none, none, none, none, none, none, none, none⟩

/-- A well-formed schedule-creation body. -/
def validScheduleBody : CreateScheduleBody :=
  ⟨some "exp", none, some "daily", some "csv", some ["a@b.co"], none, none,
   none, none, none, none, none⟩

/-- A store whose tenant `t1` already holds 20 schedules. -/
def fullSchedDB : SchedDB :=
  { users := [⟨"u1", some "t1"⟩]
    schedules := (List.range 20).map (fun i => sampleSched (toString i) "t1" true)
    schedExecs := [] }

/-- A private preset created by `u2`. -/
def samplePreset : FilterPreset :=
  { id := "p1", tenantId := "t1", name := "mine", description := none,
    isPublic := false, createdBy := "u2", icon := none, color := none,
    filterConfig := "\x7b\x7d", filterLogic := "AND", updatedAt := 0 }

/-- An empty preset `PATCH` body. -/
def emptyPresetBody : PresetPatchBody := ⟨none, none, none, none, none, none⟩

/-- A concrete user list for the filter-state computation. -/
def sampleUsers : List UserItem :=
  [⟨"Alice", "alice@x.co", "111", "Acme", "CLIENT", "ACTIVE"⟩,
   ⟨"Bob", "bob@x.co", "222", "Acme", "ADMIN", "ACTIVE"⟩,
   ⟨"Carol", "carol@y.co", "333", "Beta", "CLIENT", "INACTIVE"⟩]

/-- A generation-route context passing its gates. -/
def sampleGenCtx : GenCtx := ⟨true, true⟩

/-- A concrete report row. -/
def sampleReport : Report :=
  { id := "r1", tenantId := "t1", name := "Users", lastGeneratedAt := none,
    generationCount := 3 }

/-- A generation-route store holding one report and one old execution. -/
def sampleGenDB : GenDB :=
  { reports := [sampleReport]
    reportExecutions := [{ id := "old", reportId := "r1", status := "completed",
                           executedAt := 0 }] }

end NextAcct

/-! # Helper lemmas -/

namespace NextAcct

/-- Function `escQuotes` is the identity on quote-free strings. -/
theorem escQuotes_of_not_mem {s : List Char} (h : '"' ∉ s) : escQuotes s = s := by
  induction s with
  | nil => rfl
  | cons c cs ih =>
      have hc : c ≠ '"' := fun hc => h (hc ▸ List.mem_cons_self c cs)
      have hcs : '"' ∉ cs := fun hm => h (List.mem_cons_of_mem c hm)
      simp [escQuotes, hc, ih hcs]

/-- A string has `isEmpty = false` exactly when it is not the empty
string. -/
theorem isEmpty_false_iff (s : String) : (s.isEmpty = false) ↔ s ≠ "" := by
  rw [Bool.eq_false_iff]
  constructor
  · intro h hc
    exact h ((String.isEmpty_iff s).mpr hc)
  · intro h hc
    exact h ((String.isEmpty_iff s).mp hc)

/-- Appending one schedule changes a tenant count by at most one, and only
for that schedule's tenant. -/
theorem tenantCount_append_single (db : SchedDB) (sched : ExportSchedule)
    (t : String) :
    tenantCount { db with schedules := db.schedules ++ [sched] } t
      = tenantCount db t + (if sched.tenantId == t then 1 else 0) := by
  simp only [tenantCount, List.filter_append, List.length_append]
  congr 1
  by_cases h : sched.tenantId == t <;> simp [List.filter, h]

/-- Creating one schedule for a tenant below the limit keeps every tenant
count at or below 20. -/
theorem tenantCount_create_le (db : SchedDB) (sched : ExportSchedule)
    (t tid : String) (ht : sched.tenantId = tid)
    (hle : tenantCount db t ≤ 20) (hguard : ¬ 20 ≤ tenantCount db tid) :
    tenantCount { db with schedules := db.schedules ++ [sched] } t ≤ 20 := by
  rw [tenantCount_append_single]
  by_cases h : sched.tenantId == t
  · have heq : sched.tenantId = t := by simpa using h
    have hlt : tenantCount db t < 20 := by
      rw [← heq, ht]
      exact Nat.lt_of_not_le hguard
    rw [if_pos h]
    omega
  · rw [if_neg h]
    omega

end NextAcct

/-! # Claim theorems -/

namespace NextAcct

/-- C1: for a bulk PATCH `toggleActive` request, the handler writes the same
constant value (`not true`) into `isActive` for every matched row in one bulk
`updateMany`, rather than flipping each row's current value, so all matched
rows end with an identical `isActive` value regardless of their prior
per-row values. -/
theorem patch_toggleActive_sets_constant (ctx : ReqCtx) (ids : List String)
    (db : SchedDB) (h1 : ctx.rateLimitOk = true)
    (h2 : optTruthy ctx.sessionUserId = true)
    (h3 : ctx.hasExportPermission = true) :
    (∀ s ∈ (patchSchedules ctx ⟨some "toggleActive", some ids⟩ db).2.schedules,
        s.id ∈ ids → s.isActive = prismaNotTrue) ∧
    (∀ s1 ∈ (patchSchedules ctx ⟨some "toggleActive", some ids⟩ db).2.schedules,
      ∀ s2 ∈ (patchSchedules ctx ⟨some "toggleActive", some ids⟩ db).2.schedules,
        s1.id ∈ ids → s2.id ∈ ids → s1.isActive = s2.isActive) := by
  have hres : (patchSchedules ctx ⟨some "toggleActive", some ids⟩ db).2.schedules
      = db.schedules.map (fun u =>
          if ids.contains u.id then { u with isActive := prismaNotTrue } else u) := by
    simp [patchSchedules, h1, h2, h3]
  have key : ∀ s ∈ (patchSchedules ctx ⟨some "toggleActive", some ids⟩ db).2.schedules,
      s.id ∈ ids → s.isActive = prismaNotTrue := by
    intro s hs hid
    rw [hres] at hs
    rcases List.mem_map.mp hs with ⟨u, hu, hf⟩
    by_cases hc : ids.contains u.id
    · rw [if_pos hc] at hf
      rw [← hf]
    · rw [if_neg hc] at hf
      subst hf
      exact absurd (List.elem_eq_true_of_mem hid) hc
  exact ⟨key, fun s1 hs1 s2 hs2 hi1 hi2 => (key s1 hs1 hi1).trans (key s2 hs2 hi2).symm⟩

/-- C1 witness: a concrete store holding one active and one inactive matched
schedule. -/
theorem patch_toggleActive_sets_constant_witness :
    optTruthy sampleCtx.sessionUserId = true ∧
    ∀ s ∈ (patchSchedules sampleCtx ⟨some "toggleActive", some ["s1", "s2"]⟩
        sampleSchedDB).2.schedules,
      s.id ∈ ["s1", "s2"] → s.isActive = prismaNotTrue :=
  ⟨by decide,
   (patch_toggleActive_sets_constant sampleCtx ["s1", "s2"] sampleSchedDB rfl
      (by decide) rfl).1⟩

/-- C9: the bulk PATCH and bulk DELETE `where` clauses select rows solely by
id membership, with no tenant or owner condition: a schedule whose `tenantId`
differs from an arbitrary tenant `t` (in particular the caller's own) is
still rewritten by the bulk PATCH and removed by the bulk DELETE once its id
is listed. -/
theorem bulk_ops_ignore_tenant (ctx : ReqCtx) (ids : List String)
    (idsStr : String) (db : SchedDB) (t : String) (s : ExportSchedule)
    (h1 : ctx.rateLimitOk = true) (h2 : optTruthy ctx.sessionUserId = true)
    (h3 : ctx.hasExportPermission = true)
    (hmem : s ∈ db.schedules) (hid : s.id ∈ ids)
    (hsplit : splitCommas idsStr = ids) (ht : s.tenantId ≠ t) :
    { s with isActive := prismaNotTrue }
        ∈ (patchSchedules ctx ⟨some "toggleActive", some ids⟩ db).2.schedules ∧
    s ∉ (deleteSchedules ctx (some idsStr) db).2.schedules := by
  have hres : (patchSchedules ctx ⟨some "toggleActive", some ids⟩ db).2.schedules
      = db.schedules.map (fun u =>
          if ids.contains u.id then { u with isActive := prismaNotTrue } else u) := by
    simp [patchSchedules, h1, h2, h3]
  constructor
  · rw [hres]
    have hmm := List.mem_map_of_mem (fun u =>
      if ids.contains u.id then { u with isActive := prismaNotTrue } else u) hmem
    simpa [hid] using hmm
  · have hne : ids ≠ [] := List.ne_nil_of_mem hid
    have hlen : (ids.length == 0) = false := by
      rw [beq_eq_false_iff_ne]
      simpa [List.length_eq_zero] using hne
    have hres2 : (deleteSchedules ctx (some idsStr) db).2.schedules
        = db.schedules.filter (fun u => !(ids.contains u.id)) := by
      simp [deleteSchedules, h1, h2, h3, hsplit, hlen]
    rw [hres2]
    intro hcontra
    have hp := (List.mem_filter.mp hcontra).2
    simp at hp
    exact hp hid

/-- C9 witness: schedule `s2` belongs to tenant `t2`, yet the caller from
tenant `t1` updates and deletes it by id. -/
theorem bulk_ops_ignore_tenant_witness :
    sampleSched "s2" "t2" false ∈ sampleSchedDB.schedules ∧
    (sampleSched "s2" "t2" false).tenantId ≠ "t1" ∧
    { sampleSched "s2" "t2" false with isActive := prismaNotTrue }
        ∈ (patchSchedules sampleCtx ⟨some "toggleActive", some ["s1", "s2"]⟩
            sampleSchedDB).2.schedules ∧
    sampleSched "s2" "t2" false
        ∉ (deleteSchedules sampleCtx (some "s1,s2") sampleSchedDB).2.schedules := by
  have h := bulk_ops_ignore_tenant sampleCtx ["s1", "s2"] "s1,s2" sampleSchedDB
    "t1" (sampleSched "s2" "t2" false) rfl (by decide) rfl (by decide) (by decide)
    (by decide) (by decide)
  exact ⟨by decide, by decide, h.1, h.2⟩

/-- C2: a schedule-creation request with a missing or falsy `name`,
`frequency` or `format`, or a missing or empty `recipients` array, never
creates a row (the store is unchanged by the request), and once the
rate-limit, session, permission and tenant gates pass it is answered with
status 400. -/
theorem post_missing_fields_rejected (ctx : ReqCtx) (body : CreateScheduleBody)
    (newId : String) (now : Nat) (db : SchedDB)
    (hmiss : missingRequired body = true) :
    (postSchedule ctx body newId now db).2 = db ∧
    (ctx.rateLimitOk = true → optTruthy ctx.sessionUserId = true →
      ctx.hasExportPermission = true →
      optTruthy (lookupTenant db (ctx.sessionUserId.getD "")) = true →
      (postSchedule ctx body newId now db).1.status = 400) := by
  constructor
  · unfold postSchedule
    simp only []
    repeat' split
    all_goals first | rfl | exact absurd hmiss (by assumption)
  · intro h1 h2 h3 h4
    simp [postSchedule, h1, h2, h3, h4, hmiss]

/-- C2 witness: the all-fields-missing body against a concrete store. -/
theorem post_missing_fields_rejected_witness :
    missingRequired emptyScheduleBody = true ∧
    (postSchedule sampleCtx emptyScheduleBody "n1" 5 sampleSchedDB).2 = sampleSchedDB ∧
    (postSchedule sampleCtx emptyScheduleBody "n1" 5 sampleSchedDB).1.status = 400 :=
  ⟨by decide,
   (post_missing_fields_rejected sampleCtx emptyScheduleBody "n1" 5 sampleSchedDB
      (by decide)).1,
   (post_missing_fields_rejected sampleCtx emptyScheduleBody "n1" 5 sampleSchedDB
      (by decide)).2 rfl (by decide) rfl (by decide)⟩

/-- C3: the per-tenant limit invariant: every creation request preserves
`tenantCount ≤ 20` for every tenant, and once the gates pass, a request
arriving when the caller's tenant already holds 20 or more schedules is
answered with 400 and leaves the store unchanged. -/
theorem export_schedule_tenant_limit (ctx : ReqCtx) (body : CreateScheduleBody)
    (newId : String) (now : Nat) (db : SchedDB) (t : String) :
    (tenantCount db t ≤ 20 →
      tenantCount (postSchedule ctx body newId now db).2 t ≤ 20) ∧
    (ctx.rateLimitOk = true → optTruthy ctx.sessionUserId = true →
      ctx.hasExportPermission = true →
      lookupTenant db (ctx.sessionUserId.getD "") = some t →
      20 ≤ tenantCount db t →
      (postSchedule ctx body newId now db).1.status = 400 ∧
      (postSchedule ctx body newId now db).2 = db) := by
  constructor
  · intro hle
    unfold postSchedule
    simp only []
    repeat' split
    all_goals try exact hle
    all_goals refine tenantCount_create_le db _ t _ rfl hle ?_
    all_goals assumption
  · intro h1 h2 h3 hlk h20
    constructor
    · unfold postSchedule
      simp only []
      repeat' split
      all_goals try rfl
      all_goals simp_all
    · unfold postSchedule
      simp only []
      repeat' split
      all_goals try rfl
      all_goals simp_all

/-- C3 witness: a tenant already holding exactly 20 schedules sees a valid
21st creation attempt answered with 400 and an unchanged store. -/
theorem export_schedule_tenant_limit_witness :
    20 ≤ tenantCount fullSchedDB "t1" ∧
    (postSchedule sampleCtx validScheduleBody "n2" 7 fullSchedDB).1.status = 400 ∧
    (postSchedule sampleCtx validScheduleBody "n2" 7 fullSchedDB).2 = fullSchedDB :=
  ⟨by decide,
   ((export_schedule_tenant_limit sampleCtx validScheduleBody "n2" 7 fullSchedDB
      "t1").2 rfl (by decide) rfl (by decide) (by decide)).1,
   ((export_schedule_tenant_limit sampleCtx validScheduleBody "n2" 7 fullSchedDB
      "t1").2 rfl (by decide) rfl (by decide) (by decide)).2⟩

/-- C4 counterexample: a column label containing a double quote is emitted
unescaped by `generateCSVReport`, so the output differs from the
fully-escaped CSV output the claim describes (`"x"y"` instead of
`"x""y"`). -/
theorem csv_header_escape_counterexample :
    generateCSVReport (some [⟨"a", ['x', '"', 'y']⟩]) (some [])
      ≠ specCSVAllEscaped (some [⟨"a", ['x', '"', 'y']⟩]) (some []) := by
  decide

/-- C4 amended: data cells are always quoted with embedded double quotes
doubled, and header labels are wrapped in double quotes; but embedded double
quotes in header labels are not escaped, so the output coincides with the
fully-escaped CSV exactly on inputs whose column labels contain no
double-quote character. -/
theorem csv_escape_amended (columns? : Option (List ColumnDesc))
    (rows? : Option (List Row))
    (hlab : ∀ c ∈ columns?.getD [], '"' ∉ c.label) :
    generateCSVReport columns? rows? = specCSVAllEscaped columns? rows? := by
  cases columns? with
  | none => rfl
  | some cols =>
      have hmap : cols.map (fun c => '"' :: c.label ++ ['"'])
          = cols.map (fun c => csvQuoteEscaped c.label) := by
        apply List.map_congr_left
        intro c hc
        simp [csvQuoteEscaped, escQuotes_of_not_mem (hlab c hc)]
      simp only [generateCSVReport, specCSVAllEscaped, hmap]

/-- C4 witness for the amended claim: quote-free labels, a data value with an
embedded quote. -/
theorem csv_escape_amended_witness :
    (∀ c ∈ (some [(⟨"a", ['N']⟩ : ColumnDesc)] : Option (List ColumnDesc)).getD [],
      '"' ∉ c.label) ∧
    generateCSVReport (some [⟨"a", ['N']⟩]) (some [[("a", JSVal.str ['h', '"', 'i'])]])
      = specCSVAllEscaped (some [⟨"a", ['N']⟩]) (some [[("a", JSVal.str ['h', '"', 'i'])]]) :=
  ⟨by decide, csv_escape_amended _ _ (by decide)⟩

/-- C10: in both the tab-separated and the CSV generator a falsy stored field
value (`0`, `false`, `''`, `null`, `undefined`) renders as the empty string
through the `|| ''` fallback, so it is indistinguishable from an absent
field in the generated output. -/
theorem falsy_field_renders_empty (v : JSVal) (hv : v.falsy = true)
    (fname : String) (columns? : Option (List ColumnDesc))
    (reportName dateStr : List Char) (description? : Option (List Char))
    (summary : List (String × JSVal)) :
    renderTSVCell (some v) = [] ∧
    renderCSVCell (some v) = renderCSVCell none ∧
    generateCSVReport columns? (some [[(fname, v)]])
      = generateCSVReport columns? (some [([] : Row)]) ∧
    generateExcelReport reportName description? dateStr summary columns?
        (some [[(fname, v)]])
      = generateExcelReport reportName description? dateStr summary columns?
        (some [([] : Row)]) := by
  have hbase : jsOrEmpty (some v) = jsOrEmpty none := by
    simp [jsOrEmpty, hv]
  have hcellC : ∀ k, renderCSVCell (rowGet [(fname, v)] k)
      = renderCSVCell (rowGet ([] : Row) k) := by
    intro k
    by_cases hk : (fname == k)
    · have hg : rowGet [(fname, v)] k = some v := by
        simp [rowGet, List.find?, hk]
      have hg0 : rowGet ([] : Row) k = none := rfl
      rw [hg, hg0]
      simp [renderCSVCell, hbase]
    · have hg : rowGet [(fname, v)] k = none := by
        simp [rowGet, List.find?, hk]
      rw [hg]
      rfl
  have hcellT : ∀ k, renderTSVCell (rowGet [(fname, v)] k)
      = renderTSVCell (rowGet ([] : Row) k) := by
    intro k
    by_cases hk : (fname == k)
    · have hg : rowGet [(fname, v)] k = some v := by
        simp [rowGet, List.find?, hk]
      have hg0 : rowGet ([] : Row) k = none := rfl
      rw [hg, hg0]
      simp [renderTSVCell, hbase]
    · have hg : rowGet [(fname, v)] k = none := by
        simp [rowGet, List.find?, hk]
      rw [hg]
      rfl
  have hmapC : ∀ cols : List ColumnDesc,
      cols.map (fun c => renderCSVCell (rowGet [(fname, v)] c.name))
        = cols.map (fun c => renderCSVCell (rowGet ([] : Row) c.name)) :=
    fun cols => List.map_congr_left (fun c _ => hcellC c.name)
  have hmapT : ∀ cols : List ColumnDesc,
      cols.map (fun c => renderTSVCell (rowGet [(fname, v)] c.name))
        = cols.map (fun c => renderTSVCell (rowGet ([] : Row) c.name)) :=
    fun cols => List.map_congr_left (fun c _ => hcellT c.name)
  refine ⟨?_, ?_, ?_, ?_⟩
  · simp [renderTSVCell, jsOrEmpty, hv, jsToString]
  · simp [renderCSVCell, hbase]
  · simp [generateCSVReport, hmapC]
  · simp [generateExcelReport, hmapT]

/-- C10 witness: a stored `0` produces the same CSV output as an absent
field. -/
theorem falsy_field_renders_empty_witness :
    (JSVal.num 0).falsy = true ∧
    renderTSVCell (some (JSVal.num 0)) = [] ∧
    generateCSVReport (some [⟨"a", ['A']⟩]) (some [[("a", JSVal.num 0)]])
      = generateCSVReport (some [⟨"a", ['A']⟩]) (some [([] : Row)]) := by
  have h := falsy_field_renders_empty (JSVal.num 0) (by decide) "a"
    (some [⟨"a", ['A']⟩]) [] [] none []
  exact ⟨by decide, h.1, h.2.2.1⟩

/-- C5: filter-preset authorization: a preset that is neither public nor
created by the requester is answered 403 on GET with no preset returned, and
a preset not created by the requester is answered 403 on PATCH and DELETE
regardless of its visibility, with no payload and an unchanged store. -/
theorem preset_authorization (uid? : Option String) (pid : String)
    (db : List FilterPreset) (p : FilterPreset) (body : PresetPatchBody)
    (now : Nat) (hu : optTruthy uid? = true)
    (hp : db.find? (fun q => q.id == pid) = some p) :
    (p.isPublic = false → p.createdBy ≠ uid?.getD "" →
      presetGET uid? pid db = { status := 403, payload := none }) ∧
    (p.createdBy ≠ uid?.getD "" →
      presetPATCH uid? pid body now db = ({ status := 403, payload := none }, db) ∧
      presetDELETE uid? pid db = ({ status := 403, payload := none }, db)) := by
  constructor
  · intro hpub hown
    have hbne : (p.createdBy != uid?.getD "") = true := bne_iff_ne.mpr hown
    simp [presetGET, hu, hp, hpub, hbne]
  · intro hown
    have hbne : (p.createdBy != uid?.getD "") = true := bne_iff_ne.mpr hown
    constructor
    · simp [presetPATCH, hu, hp, hbne]
    · simp [presetDELETE, hu, hp, hbne]

/-- C5 witness: a private preset created by `u2`, requested by `u1`. -/
theorem preset_authorization_witness :
    samplePreset.isPublic = false ∧ samplePreset.createdBy ≠ "u1" ∧
    presetGET (some "u1") "p1" [samplePreset] = { status := 403, payload := none } ∧
    presetPATCH (some "u1") "p1" emptyPresetBody 9 [samplePreset]
      = ({ status := 403, payload := none }, [samplePreset]) ∧
    presetDELETE (some "u1") "p1" [samplePreset]
      = ({ status := 403, payload := none }, [samplePreset]) := by
  have h := preset_authorization (some "u1") "p1" [samplePreset] samplePreset
    emptyPresetBody 9 (by decide) (by decide)
  exact ⟨by decide, by decide, h.1 (by decide) (by decide),
    (h.2 (by decide)).1, (h.2 (by decide)).2⟩

/-- C6: when the generation step throws after the execution-tracking record
has been created, the handler records `status: 'failed'` with the error
message and a completion timestamp on that record, the re-raised exception is
mapped at the outer boundary to the generic 500 body, and the generation step
ran exactly once (no retry). -/
theorem report_failure_recorded (ctx : GenCtx) (reportId : String)
    (fmt? : Option String) (e : String) (execId : String) (now : Nat)
    (db : GenDB) (report : Report)
    (h1 : ctx.rateLimitOk = true) (h2 : ctx.hasGeneratePermission = true)
    (hr : db.reports.find? (fun r => r.id == reportId) = some report)
    (hfmt : (["pdf", "xlsx", "csv", "json"].contains (fmt?.getD "pdf")) = true)
    (hfresh : ∀ x ∈ db.reportExecutions, x.id ≠ execId) :
    (generateReportPOST ctx reportId fmt? (Except.error e) execId now db).1
      = { status := 500, error := some "Failed to generate report", content := none } ∧
    (generateReportPOST ctx reportId fmt? (Except.error e) execId now db).2.1.reportExecutions
      = db.reportExecutions ++
          [{ id := execId, reportId := report.id, status := "failed",
             executedAt := now, completedAt := some now, errorMessage := some e,
             fileSizeBytes := none }] ∧
    (generateReportPOST ctx reportId fmt? (Except.error e) execId now db).2.2 = 1 := by
  have hupd : updateExec (db.reportExecutions ++
        [{ id := execId, reportId := report.id, status := "generating",
           executedAt := now }]) execId
        (fun x => { x with status := "failed", errorMessage := some e, completedAt := some now })
      = db.reportExecutions ++
          [{ id := execId, reportId := report.id, status := "failed",
             executedAt := now, completedAt := some now, errorMessage := some e,
             fileSizeBytes := none }] := by
    unfold updateExec
    rw [List.map_append]
    congr 1
    · have step : ∀ x ∈ db.reportExecutions,
          (fun x => if x.id == execId then ({ x with status := "failed", errorMessage := some e, completedAt := some now } : ReportExecution) else x) x = id x := by
        intro x hx
        have hne : (x.id == execId) = false := beq_eq_false_iff_ne.mpr (hfresh x hx)
        simp [hne]
      rw [List.map_congr_left step, List.map_id]
    · simp
  have hmem : fmt?.getD "pdf" ∈ ["pdf", "xlsx", "csv", "json"] :=
    List.mem_of_elem_eq_true hfmt
  have hC : fmt?.getD "pdf" = "pdf" ∨ fmt?.getD "pdf" = "xlsx" ∨
      fmt?.getD "pdf" = "csv" ∨ fmt?.getD "pdf" = "json" := by
    simpa using hmem
  refine ⟨?_, ?_, ?_⟩ <;>
    simp [generateReportPOST, h1, h2, hr, hupd] <;>
    (rcases hC with h | h | h | h <;> simp [h])

/-- C6 witness: a concrete store, report and thrown error. -/
theorem report_failure_recorded_witness :
    (∀ x ∈ sampleGenDB.reportExecutions, x.id ≠ "x1") ∧
    (generateReportPOST sampleGenCtx "r1" (some "csv") (Except.error "boom")
        "x1" 9 sampleGenDB).1
      = { status := 500, error := some "Failed to generate report", content := none } ∧
    (generateReportPOST sampleGenCtx "r1" (some "csv") (Except.error "boom")
        "x1" 9 sampleGenDB).2.2 = 1 := by
  have h := report_failure_recorded sampleGenCtx "r1" (some "csv") "boom" "x1" 9
    sampleGenDB sampleReport rfl rfl (by decide) (by decide) (by decide)
  exact ⟨by decide, h.1, h.2.2⟩

/-- C7: the stats triple of the filter-state computation: the total equals
the record count, the filtered count equals the number of records matching
every active predicate under logical AND, and the activity flag holds exactly
when some filter is active. -/
theorem filterStats_counts (f : FilterState) (users : List UserItem) :
    (filterStats f users).totalCount = users.length ∧
    (filterStats f users).filteredCount
      = users.countP (fun u => matchesFilters f u) ∧
    ((filterStats f users).isFiltered = true ↔
      (f.search ≠ "" ∨ f.role.isSome = true ∨ f.status.isSome = true)) := by
  refine ⟨rfl, ?_, ?_⟩
  · simp [filterStats, filteredUsers, List.countP_eq_length_filter]
  · simp [filterStats, anyFilterActive, Bool.or_eq_true, isEmpty_false_iff, or_assoc]

/-- C7 witness: three users, role filter `CLIENT`: two records match. -/
theorem filterStats_counts_witness :
    (filterStats ⟨"", some "CLIENT", none⟩ sampleUsers).filteredCount
      = sampleUsers.countP (fun u => matchesFilters ⟨"", some "CLIENT", none⟩ u) ∧
    (filterStats ⟨"", some "CLIENT", none⟩ sampleUsers).filteredCount = 2 ∧
    (filterStats ⟨"", some "CLIENT", none⟩ sampleUsers).isFiltered = true :=
  ⟨(filterStats_counts ⟨"", some "CLIENT", none⟩ sampleUsers).2.1,
   by decide,
   (filterStats_counts ⟨"", some "CLIENT", none⟩ sampleUsers).2.2.mpr
     (Or.inr (Or.inl rfl))⟩

/-- C8: the saved-views count badge clamps every count above 99 to the
literal `"99+"` and shows counts of 99 or below as the number itself. -/
theorem savedViews_count_clamp (n : Nat) :
    (99 < n → displayViewCount n = "99+") ∧
    (n ≤ 99 → displayViewCount n = toString n) := by
  constructor
  · intro h
    simp [displayViewCount, h]
  · intro h
    have hn : ¬ 99 < n := by omega
    simp [displayViewCount, hn]

/-- C8 witness: 10000 renders as `"99+"`, 25 as `"25"`. -/
theorem savedViews_count_clamp_witness :
    (99 < 10000 ∧ displayViewCount 10000 = "99+") ∧
    (25 ≤ 99 ∧ displayViewCount 25 = toString 25) :=
  ⟨⟨by decide, (savedViews_count_clamp 10000).1 (by decide)⟩,
   ⟨by decide, (savedViews_count_clamp 25).2 (by decide)⟩⟩

end NextAcct
